import Mathlib

/-!
Shallow embedding of the rust-sctp socket layer (src/sctpsock.rs, src/mio_unix.rs,
src/lib.rs) and proofs about its address marshaling, multi-homing buffer layout,
error handling and facade behaviour.

Machine integers are modelled as `Nat` together with explicit byte arithmetic;
the endianness of the host is an explicit parameter `Endian`, so that the
native-endian/big-endian conversions (`to_be`, `from_ne_bytes`, ...) used by the
source are modelled faithfully on both kinds of host.
-/

set_option autoImplicit false

namespace RustSctp

/-- Host byte order: the source runs on either a little- or a big-endian machine. -/
inductive Endian
  | little
  | big
  deriving DecidableEq

/-- Byte swap of a 16-bit value (`u16::swap_bytes`). -/
def bswap16 (n : Nat) : Nat :=
  n % 256 * 256 + n / 256 % 256

/-- Byte swap of a 32-bit value (`u32::swap_bytes`). -/
def bswap32 (n : Nat) : Nat :=
  n % 256 * 16777216 + n / 256 % 256 * 65536 + n / 65536 % 256 * 256 + n / 16777216 % 256

/-- `u16::to_be`: identity on a big-endian host, byte swap on a little-endian one. -/
def u16_to_be (e : Endian) (n : Nat) : Nat :=
  match e with
  | .big => n
  | .little => bswap16 n

/-- `u16::from_be`: identity on a big-endian host, byte swap on a little-endian one. -/
def u16_from_be (e : Endian) (n : Nat) : Nat :=
  match e with
  | .big => n
  | .little => bswap16 n

/-- `u32::to_be`: identity on a big-endian host, byte swap on a little-endian one. -/
def u32_to_be (e : Endian) (n : Nat) : Nat :=
  match e with
  | .big => n
  | .little => bswap32 n

/-- `u32::from_ne_bytes [b0, b1, b2, b3]`: interpret four memory-order bytes as a
native-endian 32-bit value. -/
def u32_from_ne_bytes (e : Endian) (b0 b1 b2 b3 : Nat) : Nat :=
  match e with
  | .little => b0 + b1 * 256 + b2 * 65536 + b3 * 16777216
  | .big => b0 * 16777216 + b1 * 65536 + b2 * 256 + b3

/-- `u32::to_ne_bytes`: the four bytes of a native-endian 32-bit value, in memory order. -/
def u32_to_ne_bytes (e : Endian) (n : Nat) : Nat × Nat × Nat × Nat :=
  match e with
  | .little => (n % 256, n / 256 % 256, n / 65536 % 256, n / 16777216 % 256)
  | .big => (n / 16777216 % 256, n / 65536 % 256, n / 256 % 256, n % 256)

/-- Linux `AF_INET`. -/
def AF_INET : Nat := 2

/-- Linux `AF_INET6`. -/
def AF_INET6 : Nat := 10

/-- Linux `EINPROGRESS`. -/
def EINPROGRESS : Nat := 115

/-- `size_of::<libc::sockaddr>()` on Linux. -/
def sizeof_sockaddr : Nat := 16

/-- `size_of::<libc::sockaddr_in>()` on Linux. -/
def sizeof_sockaddr_in : Nat := 16

/-- `size_of::<libc::sockaddr_in6>()` on Linux. -/
def sizeof_sockaddr_in6 : Nat := 28

/-- `size_of::<libc::sockaddr_storage>()` on Linux. -/
def sizeof_sockaddr_storage : Nat := 128

/-- `std::net::SocketAddrV4`: four address octets plus a 16-bit port. -/
structure SocketAddrV4 where
  a0 : Nat
  a1 : Nat
  a2 : Nat
  a3 : Nat
  port : Nat
  deriving DecidableEq

/-- `std::net::SocketAddrV6`: sixteen address bytes, a 16-bit port, flow info and scope id. -/
structure SocketAddrV6 where
  ip : List Nat
  port : Nat
  flowinfo : Nat
  scope_id : Nat
  deriving DecidableEq

/-- `std::net::SocketAddr`. -/
inductive SocketAddr
  | V4 (a : SocketAddrV4)
  | V6 (a : SocketAddrV6)
  deriving DecidableEq

/-- Well-formedness of the `Nat` encoding of a v4 address: octets are bytes, port is 16-bit. -/
def SocketAddrV4.WF (a : SocketAddrV4) : Prop :=
  a.a0 < 256 ∧ a.a1 < 256 ∧ a.a2 < 256 ∧ a.a3 < 256 ∧ a.port < 65536

instance (a : SocketAddrV4) : Decidable a.WF :=
  inferInstanceAs (Decidable (_ ∧ _ ∧ _ ∧ _ ∧ _))

/-- Well-formedness of the `Nat` encoding of a v6 address. -/
def SocketAddrV6.WF (a : SocketAddrV6) : Prop :=
  a.ip.length = 16 ∧ (∀ b ∈ a.ip, b < 256) ∧ a.port < 65536 ∧
    a.flowinfo < 4294967296 ∧ a.scope_id < 4294967296

instance (a : SocketAddrV6) : Decidable a.WF :=
  inferInstanceAs (Decidable (_ ∧ _ ∧ _ ∧ _ ∧ _))

/-- Well-formedness of an address value. -/
def SocketAddr.WF : SocketAddr → Prop
  | .V4 a => a.WF
  | .V6 a => a.WF

instance : (a : SocketAddr) → Decidable a.WF
  | .V4 a => inferInstanceAs (Decidable a.WF)
  | .V6 a => inferInstanceAs (Decidable a.WF)

/-- `RawSocketAddr::family` for `SocketAddr` (src/sctpsock.rs): `AF_INET` for v4,
`AF_INET6` for v6. -/
def SocketAddr.family : SocketAddr → Nat
  | .V4 _ => AF_INET
  | .V6 _ => AF_INET6

/-- Whether an address is v4. -/
def SocketAddr.isV4 : SocketAddr → Bool
  | .V4 _ => true
  | .V6 _ => false

/-- Whether an address is v6. -/
def SocketAddr.isV6 : SocketAddr → Bool
  | .V4 _ => false
  | .V6 _ => true

/-- The error side of `std::io::Result`, restricted to the shapes this crate builds:
`Error::new(kind, msg)` for the kinds it uses, and `Error::last_os_error()` carrying a
raw OS error code. -/
inductive IoError
  | invalidInput (msg : String)
  | other (msg : String)
  | addrNotAvailable (msg : String)
  | os (code : Nat)
  deriving DecidableEq

deriving instance DecidableEq for Except

/-- Is an `Except` result an error? -/
def isErrB {α β : Type} : Except α β → Bool
  | .error _ => true
  | .ok _ => false

/-- `libc::sockaddr_in`, field values as stored (ports hold the big-endian-converted
value, `sin_addr` holds the `s_addr` word as stored natively). -/
structure sockaddr_in where
  sin_family : Nat
  sin_port : Nat
  sin_addr : Nat
  deriving DecidableEq

/-- `libc::sockaddr_in6`, field values as stored. -/
structure sockaddr_in6 where
  sin6_family : Nat
  sin6_port : Nat
  sin6_flowinfo : Nat
  sin6_addr : List Nat
  sin6_scope_id : Nat
  deriving DecidableEq

/-- A raw socket-address buffer as seen through pointer reinterpretation
(the `SocketAddrCRepr` union of src/mio_unix.rs, and equally a `sockaddr_storage`):
the leading `sa_family` field together with the buffer reinterpreted as a
`sockaddr_in` and as a `sockaddr_in6`. -/
structure SocketAddrCRepr where
  sa_family : Nat
  as_in : sockaddr_in
  as_in6 : sockaddr_in6
  deriving DecidableEq

/-- `socket_addr` (src/mio_unix.rs): converts a Rust `SocketAddr` into the system
representation together with its length.  For a v4 address the 28-byte `sockaddr_in6`
view would read past the 16-byte struct and is never consulted (the `AF_INET` arm of
`from_raw_ptr` matches first), so it is filled with inert values; for a v6 address the
16-byte `sockaddr_in` view is the honest prefix reinterpretation (the four bytes at
offset 4 are `sin6_flowinfo`). -/
def socket_addr (e : Endian) : SocketAddr → SocketAddrCRepr × Nat
  | .V4 a =>
    let sa : sockaddr_in :=
      { sin_family := AF_INET
        sin_port := u16_to_be e a.port
        sin_addr := u32_from_ne_bytes e a.a0 a.a1 a.a2 a.a3 }
    ({ sa_family := AF_INET
       as_in := sa
       as_in6 :=
        { sin6_family := AF_INET
          sin6_port := u16_to_be e a.port
          sin6_flowinfo := sa.sin_addr
          sin6_addr := List.replicate 16 0
          sin6_scope_id := 0 } },
     sizeof_sockaddr_in)
  | .V6 a =>
    ({ sa_family := AF_INET6
       as_in :=
        { sin_family := AF_INET6
          sin_port := u16_to_be e a.port
          sin_addr := a.flowinfo }
       as_in6 :=
        { sin6_family := AF_INET6
          sin6_port := u16_to_be e a.port
          sin6_flowinfo := a.flowinfo
          sin6_addr := a.ip
          sin6_scope_id := a.scope_id } },
     sizeof_sockaddr_in6)

/-- `<SocketAddr as RawSocketAddr>::from_raw_ptr` (src/sctpsock.rs): decode a raw
address buffer of declared length `len`.  Rejects a length below
`size_of::<sockaddr>()`, then matches on the family tag: `AF_INET` decodes a
`sockaddr_in`; `AF_INET6` decodes a `sockaddr_in6` provided `len` covers it; any
other family (or a short v6 buffer) is `InvalidInput`. -/
def from_raw_ptr (e : Endian) (addr : SocketAddrCRepr) (len : Nat) :
    Except IoError SocketAddr :=
  if len < sizeof_sockaddr then
    .error (.invalidInput "Invalid address length")
  else if addr.sa_family = AF_INET then
    let in_addr := addr.as_in
    let n := u32_to_be e in_addr.sin_addr
    .ok (.V4
      { a0 := n / 16777216 % 256
        a1 := n / 65536 % 256
        a2 := n / 256 % 256
        a3 := n % 256
        port := u16_from_be e in_addr.sin_port })
  else if addr.sa_family = AF_INET6 ∧ sizeof_sockaddr_in6 ≤ len then
    let in6_addr := addr.as_in6
    .ok (.V6
      { ip := in6_addr.sin6_addr
        port := u16_from_be e in6_addr.sin6_port
        flowinfo := in6_addr.sin6_flowinfo
        scope_id := in6_addr.sin6_scope_id })
  else
    .error (.invalidInput "Invalid socket address")

/-- `to_socket_addr` (src/mio_unix.rs): convert a `sockaddr_storage` into a
`SocketAddr`, matching only on the family tag (no length check); an unknown family
is `ErrorKind::InvalidInput.into()`, whose message is "invalid input". -/
def to_socket_addr (e : Endian) (storage : SocketAddrCRepr) : Except IoError SocketAddr :=
  if storage.sa_family = AF_INET then
    let addr := storage.as_in
    let b := u32_to_ne_bytes e addr.sin_addr
    .ok (.V4
      { a0 := b.1
        a1 := b.2.1
        a2 := b.2.2.1
        a3 := b.2.2.2
        port := u16_from_be e addr.sin_port })
  else if storage.sa_family = AF_INET6 then
    let addr := storage.as_in6
    .ok (.V6
      { ip := addr.sin6_addr
        port := u16_from_be e addr.sin6_port
        flowinfo := addr.sin6_flowinfo
        scope_id := addr.sin6_scope_id })
  else
    .error (.invalidInput "invalid input")

/-- `RawSocketAddr::from_addr` applied to one input of the generic `ToSocketAddrs`
argument.  Resolution is the external DNS collaborator, so an input is modelled by
its outcome: `some a` when it resolves to a first address `a`, `none` when the
resolved iterator is empty (the `ok_or` branch: `InvalidInput`,
"Address is not valid"). -/
def from_addr (r : Option SocketAddr) : Except IoError SocketAddr :=
  match r with
  | some a => .ok a
  | none => .error (.invalidInput "Address is not valid")

/-- Resolve a list of addresses one after the other, stopping at the first
failure, as the `for` loops of `bindx`/`connectx` do via `?`/`try!`. -/
def resolveAll : List (Option SocketAddr) → Except IoError (List SocketAddr)
  | [] => .ok []
  | r :: rest =>
    match from_addr r with
    | .error e => .error e
    | .ok a =>
      match resolveAll rest with
      | .error e => .error e
      | .ok l => .ok (a :: l)

/-- The prefix of a list of resolution outcomes that resolves before the first
failure. -/
def resolvedPrefix : List (Option SocketAddr) → List SocketAddr
  | [] => []
  | none :: _ => []
  | some a :: rest => a :: resolvedPrefix rest

/-- The `raw_addr_length` produced by `socket_addr` for one address:
`size_of::<sockaddr_in>()` for v4, `size_of::<sockaddr_in6>()` for v6. -/
def addrLen (a : SocketAddr) : Nat :=
  match a with
  | .V4 _ => sizeof_sockaddr_in
  | .V6 _ => sizeof_sockaddr_in6

/-- The `copy_nonoverlapping` events of the marshaling loop of `bindx`/`connectx`:
for each address, the pair (destination offset inside `buf`, copied length).  The
offset advances by `raw_addr_length` of the address just copied. -/
def marshalCopies : List SocketAddr → Nat → List (Nat × Nat)
  | [], _ => []
  | a :: rest, offset => (offset, addrLen a) :: marshalCopies rest (offset + addrLen a)

/-- Total length of the encodings of a list of addresses. -/
def sumLens (l : List SocketAddr) : Nat :=
  (l.map addrLen).sum

/-- What one call of `bindx` or `connectx` did to its heap buffer and to the OS:
whether `malloc` succeeded and with which size, whether `free` was reached, whether
the SCTP syscall was issued, which copies built the buffer, and the returned
`Result`. -/
structure MarshalTrace (α : Type) where
  allocated : Bool
  allocSize : Nat
  freed : Bool
  syscalled : Bool
  copies : List (Nat × Nat)
  result : Except IoError α
  deriving DecidableEq

/-- `SctpSocket::bindx` (src/sctpsock.rs).  Inputs beyond the address list are the
outcomes of the external collaborators: whether `malloc` returns a non-null pointer,
and the result of the `sctp_bindx` syscall.  Control flow follows the source:
empty list rejected before allocation; a null `malloc` reported as
`Other("Out of memory")`; a failing `from_addr` inside the loop early-returns via
`?` without freeing; a failing syscall frees the buffer; a succeeding syscall
returns `Ok(())` without freeing the buffer. -/
def SctpSocket.bindx (addresses : List (Option SocketAddr)) (mallocOk : Bool)
    (sctp_bindx_res : Except Nat Unit) : MarshalTrace Unit :=
  if addresses.length = 0 then
    { allocated := false, allocSize := 0, freed := false, syscalled := false,
      copies := [], result := .error (.invalidInput "No addresses given") }
  else
    let size := addresses.length * sizeof_sockaddr_in6
    if mallocOk = false then
      { allocated := false, allocSize := size, freed := false, syscalled := false,
        copies := [], result := .error (.other "Out of memory") }
    else
      match resolveAll addresses with
      | .error e =>
        { allocated := true, allocSize := size, freed := false, syscalled := false,
          copies := marshalCopies (resolvedPrefix addresses) 0, result := .error e }
      | .ok vec =>
        match sctp_bindx_res with
        | .error code =>
          { allocated := true, allocSize := size, freed := true, syscalled := true,
            copies := marshalCopies vec 0, result := .error (.os code) }
        | .ok _ =>
          { allocated := true, allocSize := size, freed := false, syscalled := true,
            copies := marshalCopies vec 0, result := .ok () }

/-- `SctpSocket::connectx` (src/sctpsock.rs).  Same shape as `bindx` with an
allocation of `addresses.len() * size_of::<sockaddr_storage>()`, and the association
id written by a succeeding `sctp_connectx` is returned; here the buffer is freed on
both syscall outcomes, but still not on the in-loop `from_addr` failure. -/
def SctpSocket.connectx (addresses : List (Option SocketAddr)) (mallocOk : Bool)
    (sctp_connectx_res : Except Nat Nat) : MarshalTrace Nat :=
  if addresses.length = 0 then
    { allocated := false, allocSize := 0, freed := false, syscalled := false,
      copies := [], result := .error (.invalidInput "No addresses given") }
  else
    let size := addresses.length * sizeof_sockaddr_storage
    if mallocOk = false then
      { allocated := false, allocSize := size, freed := false, syscalled := false,
        copies := [], result := .error (.other "Out of memory") }
    else
      match resolveAll addresses with
      | .error e =>
        { allocated := true, allocSize := size, freed := false, syscalled := false,
          copies := marshalCopies (resolvedPrefix addresses) 0, result := .error e }
      | .ok vec =>
        match sctp_connectx_res with
        | .error code =>
          { allocated := true, allocSize := size, freed := true, syscalled := true,
            copies := marshalCopies vec 0, result := .error (.os code) }
        | .ok assoc =>
          { allocated := true, allocSize := size, freed := true, syscalled := true,
            copies := marshalCopies vec 0, result := .ok assoc }

/-- `SctpSocket::connect` (src/sctpsock.rs): resolve the address, then issue the
`connect` syscall; a failing syscall whose OS code is exactly `EINPROGRESS` is
converted to `Ok(())`, every other failure is propagated. -/
def SctpSocket.connect (addrRes : Option SocketAddr) (connectRes : Except Nat Unit) :
    Except IoError Unit :=
  match from_addr addrRes with
  | .error e => .error e
  | .ok _ =>
    match connectRes with
    | .error code => if code ≠ EINPROGRESS then .error (.os code) else .ok ()
    | .ok _ => .ok ()

/-- `SctpSocket::recvmsg` (src/sctpsock.rs): on a failing `sctp_recvmsg` the OS
error is propagated; on success the kernel-filled sender address is decoded with
`to_socket_addr`, and the triple (received length, `sinfo_stream`, sender address)
is produced only if that decoding succeeds. -/
def SctpSocket.recvmsg (e : Endian)
    (sctp_recvmsg_res : Except Nat (Nat × Nat × SocketAddrCRepr)) :
    Except IoError (Nat × Nat × SocketAddr) :=
  match sctp_recvmsg_res with
  | .error code => .error (.os code)
  | .ok (recvlen, stream, storage) =>
    match to_socket_addr e storage with
    | .error err => .error err
    | .ok addr => .ok (recvlen, stream, addr)

/-- The arguments of the `sctp_sendmsg` syscall issued by `SctpSocket::sendmsg`. -/
structure SctpSendmsgCall where
  msg : List Nat
  addr : Option SocketAddr
  ppid : Nat
  flags : Nat
  stream : Nat
  ttl : Nat
  context : Nat
  deriving DecidableEq

/-- `SctpSocket::sendmsg` (src/sctpsock.rs): its five data parameters are
`msg`, `address`, `ppid`, `stream`, `ttl`, in this order; it converts `ppid` with
`to_be` and issues `sctp_sendmsg` with `flags = 0` and `context = 0`. -/
def SctpSocket.sendmsg (e : Endian) (msg : List Nat) (address : Option SocketAddr)
    (ppid stream ttl : Nat) : SctpSendmsgCall :=
  { msg := msg, addr := address, ppid := u32_to_be e ppid, flags := 0,
    stream := stream, ttl := ttl, context := 0 }

/-- The parameter names of `SctpSocket::sendmsg`, in declaration order
(`&self` omitted). -/
def SctpSocket.sendmsgParams : List String :=
  ["msg", "address", "ppid", "stream", "ttl"]

/-- A positional argument at a Rust call site. -/
inductive RustArg
  | bytes (b : List Nat)
  | addrOpt (a : Option SocketAddr)
  | uint (n : Nat)
  deriving DecidableEq

/-- The positional argument list of the call
`self.0.sendmsg::<SocketAddr>(msg, None, stream, 0)` in `SctpStream::sendmsg`
(src/lib.rs). -/
def SctpStream.sendmsgArgs (msg : List Nat) (stream : Nat) : List RustArg :=
  [.bytes msg, .addrOpt none, .uint stream, .uint 0]

/-- The family scan of the facade multi-address constructors
(`SctpStream::connectx`, `SctpListener::bindx`, `SctpEndpoint::bindx` in
src/lib.rs): start from `AF_INET` and switch to `AF_INET6` whenever an address of
family `AF_INET6` is seen. -/
def familyScan (addrs : List SocketAddr) : Nat :=
  addrs.foldl (fun family a => if a.family = AF_INET6 then AF_INET6 else family) AF_INET

/-- What one facade multi-address constructor did: the family passed to
`SctpSocket::new` (if reached), the trace of the raw multi-homing call (if reached),
and the returned `Result` (with the constructed facade value erased to `Unit`). -/
structure FacadeTrace (α : Type) where
  family : Option Nat
  raw : Option (MarshalTrace α)
  result : Except IoError Unit
  deriving DecidableEq

/-- `SctpStream::connectx` (src/lib.rs): reject an empty list, resolve every
address while scanning the family, create the socket (`socketRes` is the outcome of
`SctpSocket::new`), call the raw `connectx` on the resolved list, and discard the
association id. -/
def SctpStream.connectx (addresses : List (Option SocketAddr))
    (socketRes : Except Nat Unit) (mallocOk : Bool)
    (sctp_connectx_res : Except Nat Nat) : FacadeTrace Nat :=
  if addresses.length = 0 then
    { family := none, raw := none, result := .error (.invalidInput "No addresses given") }
  else
    match resolveAll addresses with
    | .error e => { family := none, raw := none, result := .error e }
    | .ok vec =>
      let family := familyScan vec
      match socketRes with
      | .error code => { family := some family, raw := none, result := .error (.os code) }
      | .ok _ =>
        let tr := SctpSocket.connectx (vec.map some) mallocOk sctp_connectx_res
        match tr.result with
        | .error e => { family := some family, raw := some tr, result := .error e }
        | .ok _ => { family := some family, raw := some tr, result := .ok () }

/-- `SctpListener::bindx` (src/lib.rs; `SctpEndpoint::bindx` is identical except
for the socket kind): reject an empty list, resolve and scan, create the socket,
raw `bindx` with `AddAddr`, then `listen(-1)`. -/
def SctpListener.bindx (addresses : List (Option SocketAddr))
    (socketRes : Except Nat Unit) (mallocOk : Bool)
    (sctp_bindx_res : Except Nat Unit) (listenRes : Except Nat Unit) :
    FacadeTrace Unit :=
  if addresses.length = 0 then
    { family := none, raw := none, result := .error (.invalidInput "No addresses given") }
  else
    match resolveAll addresses with
    | .error e => { family := none, raw := none, result := .error e }
    | .ok vec =>
      let family := familyScan vec
      match socketRes with
      | .error code => { family := some family, raw := none, result := .error (.os code) }
      | .ok _ =>
        let tr := SctpSocket.bindx (vec.map some) mallocOk sctp_bindx_res
        match tr.result with
        | .error e => { family := some family, raw := some tr, result := .error e }
        | .ok _ =>
          match listenRes with
          | .error code =>
            { family := some family, raw := some tr, result := .error (.os code) }
          | .ok _ => { family := some family, raw := some tr, result := .ok () }

/-- `Incoming::next` (src/lib.rs): one step of the iterator over incoming
connections.  The accepted stream is modelled by its raw handle (a `Nat`); the
input is the outcome of `SctpListener::accept`. -/
def Incoming.next (acceptRes : Except IoError (Nat × SocketAddr)) :
    Option (Except IoError Nat) :=
  match acceptRes with
  | .ok (stream, _) => some (.ok stream)
  | .error e => some (.error e)

/-- A concrete v4 address, 127.0.0.1:3868. -/
def addr4 : SocketAddr :=
  .V4 { a0 := 127, a1 := 0, a2 := 0, a3 := 1, port := 3868 }

/-- A concrete v6 address, [::1]:3868. -/
def addr6 : SocketAddr :=
  .V6 { ip := [0, 0, 0, 0, 0, 0, 0, 0, 0, 0, 0, 0, 0, 0, 0, 1],
        port := 3868, flowinfo := 0, scope_id := 0 }

/-- A raw buffer whose family tag is `AF_UNIX` (1): neither `AF_INET` nor
`AF_INET6`. -/
def badStorage : SocketAddrCRepr :=
  { sa_family := 1
    as_in := { sin_family := 1, sin_port := 0, sin_addr := 0 }
    as_in6 := { sin6_family := 1, sin6_port := 0, sin6_flowinfo := 0,
                sin6_addr := List.replicate 16 0, sin6_scope_id := 0 } }

/-- The 16-bit byte swap is involutive on 16-bit values. -/
theorem bswap16_involutive (p : Nat) (h : p < 65536) : bswap16 (bswap16 p) = p := by
  show (p % 256 * 256 + p / 256 % 256) % 256 * 256 +
      (p % 256 * 256 + p / 256 % 256) / 256 % 256 = p
  have h3 : p / 256 % 256 = p / 256 := Nat.mod_eq_of_lt (by omega)
  have h4 : (p % 256 * 256 + p / 256) % 256 = p / 256 := by
    rw [Nat.add_mod, Nat.mul_mod_left]
    omega
  have h5 : (p % 256 * 256 + p / 256) / 256 = p % 256 := by
    rw [Nat.add_div_eq_of_add_mod_lt]
    · rw [Nat.mul_div_cancel _ (by norm_num : 0 < 256)]
      omega
    · rw [Nat.mul_mod_left]
      omega
  rw [h3, h4, h5]
  omega

/-- Converting a 16-bit value to big-endian and reading it back as big-endian is the
identity, on either kind of host. -/
theorem u16_be_roundtrip (e : Endian) (p : Nat) (h : p < 65536) :
    u16_from_be e (u16_to_be e p) = p := by
  cases e
  · exact bswap16_involutive p h
  · rfl

/-- Extracting the four octets of a numeric big-endian 32-bit value recovers the
bytes it was assembled from. -/
theorem be32_octets (b0 b1 b2 b3 : Nat) (h0 : b0 < 256) (h1 : b1 < 256)
    (h2 : b2 < 256) (h3 : b3 < 256) :
    (b0 * 16777216 + b1 * 65536 + b2 * 256 + b3) / 16777216 % 256 = b0 ∧
    (b0 * 16777216 + b1 * 65536 + b2 * 256 + b3) / 65536 % 256 = b1 ∧
    (b0 * 16777216 + b1 * 65536 + b2 * 256 + b3) / 256 % 256 = b2 ∧
    (b0 * 16777216 + b1 * 65536 + b2 * 256 + b3) % 256 = b3 := by
  have d1 : (b0 * 16777216 + b1 * 65536 + b2 * 256 + b3) / 16777216 = b0 := by omega
  have d2 : (b0 * 16777216 + b1 * 65536 + b2 * 256 + b3) / 65536 = b0 * 256 + b1 := by
    omega
  have d3 : (b0 * 16777216 + b1 * 65536 + b2 * 256 + b3) / 256 =
      (b0 * 256 + b1) * 256 + b2 := by omega
  refine ⟨?_, ?_, ?_, ?_⟩
  · rw [d1]
    omega
  · rw [d2]
    omega
  · rw [d3]
    omega
  · omega

/-- Building `s_addr` with `from_ne_bytes` and converting with `to_be` yields the
numeric big-endian interpretation of the four octets, on either kind of host. -/
theorem u32_be_octets (e : Endian) (b0 b1 b2 b3 : Nat)
    (h0 : b0 < 256) (h1 : b1 < 256) (h2 : b2 < 256) (h3 : b3 < 256) :
    u32_to_be e (u32_from_ne_bytes e b0 b1 b2 b3) =
      b0 * 16777216 + b1 * 65536 + b2 * 256 + b3 := by
  cases e
  · simp only [u32_to_be, u32_from_ne_bytes, bswap32]
    omega
  · rfl

/-- C4: for every portable socket address (IPv4 or IPv6, any port), decoding the
binary encoding round-trips: `from_raw_ptr` applied to the buffer and length
produced by `socket_addr` returns `Ok` of the same address, preserving IP version,
address bytes and port, and for v6 also flowinfo and scope id — on either host
endianness. -/
theorem socket_addr_from_raw_ptr_roundtrip (e : Endian) (a : SocketAddr) (h : a.WF) :
    from_raw_ptr e (socket_addr e a).1 (socket_addr e a).2 = .ok a := by
  cases a with
  | V4 v =>
    obtain ⟨b0, b1, b2, b3, p⟩ := v
    obtain ⟨h0, h1, h2, h3, hp⟩ := h
    replace h0 : b0 < 256 := h0
    replace h1 : b1 < 256 := h1
    replace h2 : b2 < 256 := h2
    replace h3 : b3 < 256 := h3
    replace hp : p < 65536 := hp
    simp only [socket_addr, from_raw_ptr, sizeof_sockaddr, sizeof_sockaddr_in,
      sizeof_sockaddr_in6, AF_INET, AF_INET6]
    norm_num
    rw [u32_be_octets e b0 b1 b2 b3 h0 h1 h2 h3, u16_be_roundtrip e p hp]
    obtain ⟨o0, o1, o2, o3⟩ := be32_octets b0 b1 b2 b3 h0 h1 h2 h3
    exact ⟨o0, o1, o2, o3, rfl⟩
  | V6 v =>
    obtain ⟨ip, p, fl, sc⟩ := v
    obtain ⟨hlen2, hb, hp, hfl, hsc⟩ := h
    simp only [socket_addr, from_raw_ptr, sizeof_sockaddr, sizeof_sockaddr_in,
      sizeof_sockaddr_in6, AF_INET, AF_INET6]
    norm_num
    exact u16_be_roundtrip e p hp

/-- Witness for C4 at a concrete v6 address on a little-endian host. -/
theorem socket_addr_from_raw_ptr_roundtrip_witness :
    addr6.WF ∧
      from_raw_ptr .little (socket_addr .little addr6).1 (socket_addr .little addr6).2 =
        .ok addr6 :=
  ⟨by decide, socket_addr_from_raw_ptr_roundtrip .little addr6 (by decide)⟩

/-- C7: `from_raw_ptr` fails exactly when the family tag is neither `AF_INET` nor
`AF_INET6`, or the declared length is below the size the tagged family's structure
requires (`sockaddr_in` for v4, `sockaddr_in6` for v6); every failure is of kind
`InvalidInput`, and otherwise a decoded address is returned. -/
theorem from_raw_ptr_error_characterization (e : Endian) (buf : SocketAddrCRepr)
    (len : Nat) :
    (isErrB (from_raw_ptr e buf len) = true ↔
      (buf.sa_family ≠ AF_INET ∧ buf.sa_family ≠ AF_INET6) ∨
      (buf.sa_family = AF_INET ∧ len < sizeof_sockaddr_in) ∨
      (buf.sa_family = AF_INET6 ∧ len < sizeof_sockaddr_in6)) ∧
    ((∃ m, from_raw_ptr e buf len = .error (.invalidInput m)) ∨
      (∃ a, from_raw_ptr e buf len = .ok a)) := by
  simp only [from_raw_ptr, sizeof_sockaddr, sizeof_sockaddr_in, sizeof_sockaddr_in6,
    AF_INET, AF_INET6]
  split_ifs with hlen hfam hfam6
  · refine ⟨Iff.intro (fun _ => ?_) (fun _ => rfl), Or.inl ⟨"Invalid address length", rfl⟩⟩
    by_cases hf : buf.sa_family = 2
    · exact Or.inr (Or.inl ⟨hf, hlen⟩)
    · by_cases hf6 : buf.sa_family = 10
      · exact Or.inr (Or.inr ⟨hf6, by omega⟩)
      · exact Or.inl ⟨hf, hf6⟩
  · refine ⟨Iff.intro (fun hx => by simp [isErrB] at hx) (fun hx => ?_), Or.inr ⟨_, rfl⟩⟩
    exfalso
    rcases hx with ⟨hx1, _⟩ | ⟨_, hx2⟩ | ⟨hx1, _⟩
    · exact hx1 hfam
    · omega
    · omega
  · refine ⟨Iff.intro (fun hx => by simp [isErrB] at hx) (fun hx => ?_), Or.inr ⟨_, rfl⟩⟩
    exfalso
    obtain ⟨hf6, hlen6⟩ := hfam6
    rcases hx with ⟨_, hx1⟩ | ⟨hx1, _⟩ | ⟨_, hx2⟩
    · exact hx1 hf6
    · exact hfam hx1
    · omega
  · refine ⟨Iff.intro (fun _ => ?_) (fun _ => rfl), Or.inl ⟨"Invalid socket address", rfl⟩⟩
    by_cases hf6 : buf.sa_family = 10
    · refine Or.inr (Or.inr ⟨hf6, ?_⟩)
      by_contra hx
      exact hfam6 ⟨hf6, by omega⟩
    · exact Or.inl ⟨hfam, hf6⟩

/-- C8: `SctpSocket::connect` returns `Ok(())` both when the OS `connect` succeeds
and when it fails with exactly `EINPROGRESS`; any other OS failure is returned as
the OS error. -/
theorem connect_inprogress_is_ok (a : SocketAddr) :
    SctpSocket.connect (some a) (.ok ()) = .ok () ∧
    SctpSocket.connect (some a) (.error EINPROGRESS) = .ok () ∧
    ∀ code, code ≠ EINPROGRESS →
      SctpSocket.connect (some a) (.error code) = .error (.os code) := by
  refine ⟨rfl, rfl, fun code hc => ?_⟩
  simp [SctpSocket.connect, from_addr, hc]

/-- Witness for C8 at concrete syscall outcomes (111 is `ECONNREFUSED`). -/
theorem connect_inprogress_is_ok_witness :
    SctpSocket.connect (some addr4) (.ok ()) = .ok () ∧
    SctpSocket.connect (some addr4) (.error EINPROGRESS) = .ok () ∧
    SctpSocket.connect (some addr4) (.error 111) = .error (.os 111) :=
  ⟨(connect_inprogress_is_ok addr4).1, (connect_inprogress_is_ok addr4).2.1,
    (connect_inprogress_is_ok addr4).2.2 111 (by decide)⟩

/-- C9: `Incoming::next` never returns `None`: it yields `Some(Ok(stream))` when
the underlying accept succeeds and `Some(Err(e))` when it fails, so an accept error
does not end the iteration. -/
theorem incoming_next_total (acceptRes : Except IoError (Nat × SocketAddr)) :
    Incoming.next acceptRes = some (Except.map Prod.fst acceptRes) ∧
    (Incoming.next acceptRes).isSome = true := by
  cases acceptRes with
  | error e => exact ⟨rfl, rfl⟩
  | ok p =>
    obtain ⟨s, addr⟩ := p
    exact ⟨rfl, rfl⟩

/-- C10: when `sctp_recvmsg` succeeds but the kernel-reported sender address has a
family other than `AF_INET` or `AF_INET6`, `recvmsg` returns an `InvalidInput`
error, discarding the received byte count and stream id. -/
theorem recvmsg_unknown_family_discards (e : Endian) (recvlen stream : Nat)
    (storage : SocketAddrCRepr) (h1 : storage.sa_family ≠ AF_INET)
    (h2 : storage.sa_family ≠ AF_INET6) :
    SctpSocket.recvmsg e (.ok (recvlen, stream, storage)) =
      .error (.invalidInput "invalid input") := by
  simp [SctpSocket.recvmsg, to_socket_addr, h1, h2]

/-- Witness for C10 at a concrete `AF_UNIX`-tagged sender buffer. -/
theorem recvmsg_unknown_family_discards_witness :
    SctpSocket.recvmsg .little (.ok (5, 3, badStorage)) =
      .error (.invalidInput "invalid input") :=
  recvmsg_unknown_family_discards .little 5 3 badStorage (by decide) (by decide)

/-- C1: the facade `SctpStream::sendmsg` invokes the raw `SctpSocket::sendmsg`
with the argument list `(msg, None, stream, 0)` — four positional arguments for
five parameters `(msg, address, ppid, stream, ttl)`.  At the concrete input
(payload `[1]`, stream id 6), positional alignment puts the stream id 6 in the
raw `ppid` position and 0 in the raw `stream` position, and supplies no `ttl` at
all; the raw call therefore cannot receive `stream = 6` with `ppid = 0`. -/
theorem sctpStream_sendmsg_argument_mismatch :
    SctpStream.sendmsgArgs [1] 6 = [.bytes [1], .addrOpt none, .uint 6, .uint 0] ∧
    (SctpStream.sendmsgArgs [1] 6).length = 4 ∧
    SctpSocket.sendmsgParams.length = 5 ∧
    SctpSocket.sendmsgParams.get? 2 = some "ppid" ∧
    (SctpStream.sendmsgArgs [1] 6).get? 2 = some (.uint 6) ∧
    SctpSocket.sendmsgParams.get? 3 = some "stream" ∧
    (SctpStream.sendmsgArgs [1] 6).get? 3 = some (.uint 0) :=
  ⟨rfl, rfl, rfl, rfl, rfl, rfl, rfl⟩

/-- C2: the marshaling buffer is not freed on every exit path.  At concrete
inputs: a successful `bindx` over one address returns `Ok(())` with the buffer
allocated and never freed, and a `connectx` whose second address fails to resolve
early-returns with the buffer allocated and never freed. -/
theorem bindx_connectx_buffer_leak :
    (SctpSocket.bindx [some addr4] true (.ok ())).result = .ok () ∧
    (SctpSocket.bindx [some addr4] true (.ok ())).allocated = true ∧
    (SctpSocket.bindx [some addr4] true (.ok ())).freed = false ∧
    (SctpSocket.connectx [some addr4, none] true (.ok 7)).allocated = true ∧
    (SctpSocket.connectx [some addr4, none] true (.ok 7)).freed = false :=
  ⟨rfl, rfl, rfl, rfl, rfl⟩

/-- `sumLens` distributes over cons. -/
theorem sumLens_cons (a : SocketAddr) (l : List SocketAddr) :
    sumLens (a :: l) = addrLen a + sumLens l := by
  simp [sumLens]

/-- The i-th copy event of the marshaling loop: destination offset is the base
offset plus the total length of the preceding encodings, copied length is the
encoding length of the i-th address. -/
theorem marshalCopies_get? (addrs : List SocketAddr) (off i : Nat) :
    (marshalCopies addrs off).get? i =
      (addrs.get? i).map (fun a => (off + sumLens (addrs.take i), addrLen a)) := by
  induction addrs generalizing off i with
  | nil => simp [marshalCopies]
  | cons a rest ih =>
    cases i with
    | zero => simp [marshalCopies, sumLens]
    | succ n =>
      simp only [marshalCopies, List.get?_cons_succ, List.take_succ_cons, sumLens_cons]
      rw [ih, Nat.add_assoc]

/-- A list whose members all have encoding length `c` has total encoding length
`length * c`. -/
theorem sumLens_const (l : List SocketAddr) (c : Nat) (h : ∀ a ∈ l, addrLen a = c) :
    sumLens l = l.length * c := by
  induction l with
  | nil => simp [sumLens]
  | cons a t ih =>
    rw [sumLens_cons, h a (List.mem_cons_self a t),
      ih (fun x hx => h x (List.mem_cons_of_mem a hx)), List.length_cons]
    ring

/-- Resolution of a list of already-resolved addresses always succeeds with that
list. -/
theorem resolveAll_map_some (l : List SocketAddr) : resolveAll (l.map some) = .ok l := by
  induction l with
  | nil => rfl
  | cons a t ih => simp [resolveAll, from_addr, ih]

/-- C3 counterexample: for the mixed list `[v4, v6]` — whose family, per the
claim, is v6 with slot size `sizeof(sockaddr_in6)` — the second address is encoded
at offset 16, not `1 * 28`; and for the one-element v4 list, the `bindx`
allocation is 28 bytes, not `1 * sizeof(sockaddr_in)`. -/
theorem marshal_fixed_slots_cex :
    (marshalCopies [addr4, addr6] 0).get? 1 = some (16, sizeof_sockaddr_in6) ∧
    (16 : Nat) ≠ 1 * sizeof_sockaddr_in6 ∧
    (SctpSocket.bindx [some addr4] true (.ok ())).allocSize = 28 ∧
    (28 : Nat) ≠ 1 * sizeof_sockaddr_in :=
  ⟨rfl, by decide, rfl, by decide⟩

/-- C3 amended: the marshaled buffer is packed contiguously — the i-th encoded
address sits at the offset equal to the total size of the preceding encodings
(16 bytes per v4 address, 28 per v6), so the offset equals `i * slot_size` only
for uniform-family lists; the allocation is `count * sizeof(sockaddr_in6)` for
`bindx` and `count * sizeof(sockaddr_storage)` for `connectx`, independent of the
family. -/
theorem marshal_packed_offsets (addrs : List SocketAddr) (i : Nat) :
    ((marshalCopies addrs 0).get? i =
      (addrs.get? i).map (fun a => (sumLens (addrs.take i), addrLen a))) ∧
    (i ≤ addrs.length → addrs.all SocketAddr.isV4 = true →
      sumLens (addrs.take i) = i * sizeof_sockaddr_in) ∧
    (i ≤ addrs.length → addrs.all SocketAddr.isV6 = true →
      sumLens (addrs.take i) = i * sizeof_sockaddr_in6) ∧
    ((SctpSocket.bindx (addrs.map some) true (.ok ())).allocSize =
      if addrs.length = 0 then 0 else addrs.length * sizeof_sockaddr_in6) ∧
    ((SctpSocket.connectx (addrs.map some) true (.ok 0)).allocSize =
      if addrs.length = 0 then 0 else addrs.length * sizeof_sockaddr_storage) := by
  refine ⟨by simpa using marshalCopies_get? addrs 0 i, ?_, ?_, ?_, ?_⟩
  · intro hi hall
    simp only [List.all_eq_true] at hall
    have hlen : (addrs.take i).length = i := by
      rw [List.length_take]
      omega
    have hc : ∀ a ∈ addrs.take i, addrLen a = sizeof_sockaddr_in := by
      intro a ha
      have hmem : a ∈ addrs := List.take_subset i addrs ha
      cases a with
      | V4 v => rfl
      | V6 v => simpa [SocketAddr.isV4] using hall _ hmem
    rw [sumLens_const _ _ hc, hlen]
  · intro hi hall
    simp only [List.all_eq_true] at hall
    have hlen : (addrs.take i).length = i := by
      rw [List.length_take]
      omega
    have hc : ∀ a ∈ addrs.take i, addrLen a = sizeof_sockaddr_in6 := by
      intro a ha
      have hmem : a ∈ addrs := List.take_subset i addrs ha
      cases a with
      | V4 v => simpa [SocketAddr.isV6] using hall _ hmem
      | V6 v => rfl
    rw [sumLens_const _ _ hc, hlen]
  · cases addrs with
    | nil => rfl
    | cons a t =>
      simp only [SctpSocket.bindx, List.map_cons, List.length_cons, List.length_map,
        Nat.succ_ne_zero, if_false, Bool.true_eq_false]
      rw [show resolveAll (some a :: List.map some t) = Except.ok (a :: t) from
        resolveAll_map_some (a :: t)]
  · cases addrs with
    | nil => rfl
    | cons a t =>
      simp only [SctpSocket.connectx, List.map_cons, List.length_cons, List.length_map,
        Nat.succ_ne_zero, if_false, Bool.true_eq_false]
      rw [show resolveAll (some a :: List.map some t) = Except.ok (a :: t) from
        resolveAll_map_some (a :: t)]

/-- Witness for the amended C3 at the uniform v4 list `[addr4, addr4]`, index 1. -/
theorem marshal_packed_offsets_witness :
    sumLens (([addr4, addr4] : List SocketAddr).take 1) = 1 * sizeof_sockaddr_in :=
  (marshal_packed_offsets [addr4, addr4] 1).2.1 (by decide) (by decide)

/-- The family test performed by the facade scan agrees with `isV6`. -/
theorem family_beq_isV6 (a : SocketAddr) : (a.family == AF_INET6) = a.isV6 := by
  cases a <;> rfl

/-- The facade family fold, for an arbitrary accumulator. -/
theorem familyScan_foldl (addrs : List SocketAddr) (init : Nat) :
    addrs.foldl (fun family a => if a.family = AF_INET6 then AF_INET6 else family) init =
      if addrs.any SocketAddr.isV6 then AF_INET6 else init := by
  induction addrs generalizing init with
  | nil => simp
  | cons a t ih =>
    simp only [List.foldl_cons, List.any_cons]
    rw [ih]
    cases a with
    | V4 v => simp [SocketAddr.isV6, SocketAddr.family, AF_INET, AF_INET6]
    | V6 v => simp [SocketAddr.isV6, SocketAddr.family, AF_INET6]

/-- C5: the family the facade multi-address constructors choose is `AF_INET6` as
soon as one address of the list is v6 and `AF_INET` otherwise; the result is
invariant under permutation of the list; and `SctpStream::connectx` /
`SctpListener::bindx` pass exactly this scanned family to `SctpSocket::new` for
every non-empty resolving list. -/
theorem facade_family_inference (addrs : List SocketAddr) :
    (familyScan addrs = if addrs.any SocketAddr.isV6 then AF_INET6 else AF_INET) ∧
    (∀ addrs2, addrs.Perm addrs2 → familyScan addrs = familyScan addrs2) ∧
    ((SctpStream.connectx (addrs.map some) (.ok ()) true (.ok 0)).family =
      if addrs.length = 0 then none else some (familyScan addrs)) ∧
    ((SctpListener.bindx (addrs.map some) (.ok ()) true (.ok ()) (.ok ())).family =
      if addrs.length = 0 then none else some (familyScan addrs)) := by
  refine ⟨familyScan_foldl addrs AF_INET, ?_, ?_, ?_⟩
  · intro addrs2 hperm
    rw [familyScan, familyScan, familyScan_foldl, familyScan_foldl]
    have hany : addrs.any SocketAddr.isV6 = addrs2.any SocketAddr.isV6 := by
      rw [Bool.eq_iff_iff, List.any_eq_true, List.any_eq_true]
      constructor
      · rintro ⟨x, hx, hv⟩
        exact ⟨x, hperm.mem_iff.mp hx, hv⟩
      · rintro ⟨x, hx, hv⟩
        exact ⟨x, hperm.mem_iff.mpr hx, hv⟩
    rw [hany]
  · cases addrs with
    | nil => rfl
    | cons a t =>
      simp only [SctpStream.connectx, List.map_cons, List.length_cons, List.length_map,
        Nat.succ_ne_zero, if_false]
      rw [show resolveAll (some a :: List.map some t) = Except.ok (a :: t) from
        resolveAll_map_some (a :: t)]
      dsimp only
      cases hr : (SctpSocket.connectx (List.map some (a :: t)) true (Except.ok 0)).result <;>
        rfl
  · cases addrs with
    | nil => rfl
    | cons a t =>
      simp only [SctpListener.bindx, List.map_cons, List.length_cons, List.length_map,
        Nat.succ_ne_zero, if_false]
      rw [show resolveAll (some a :: List.map some t) = Except.ok (a :: t) from
        resolveAll_map_some (a :: t)]
      dsimp only
      cases hr : (SctpSocket.bindx (List.map some (a :: t)) true (Except.ok ())).result <;>
        rfl

/-- Witness for C5: the scan at a two-element mixed list and one of its
permutations. -/
theorem facade_family_inference_witness :
    familyScan [addr4, addr6] = familyScan [addr6, addr4] :=
  (facade_family_inference [addr4, addr6]).2.1 [addr6, addr4] (by decide)

/-- C6: a `bindx` or `connectx` call (raw handle or facade) with an empty address
list fails with `InvalidInput` before allocating a buffer or issuing a syscall;
for a one-element list the marshaled buffer holds exactly one slot, at offset 0. -/
theorem empty_list_invalid_input :
    (∀ mallocOk res, (SctpSocket.bindx [] mallocOk res).result =
        .error (.invalidInput "No addresses given") ∧
      (SctpSocket.bindx [] mallocOk res).allocated = false ∧
      (SctpSocket.bindx [] mallocOk res).syscalled = false) ∧
    (∀ mallocOk res, (SctpSocket.connectx [] mallocOk res).result =
        .error (.invalidInput "No addresses given") ∧
      (SctpSocket.connectx [] mallocOk res).allocated = false ∧
      (SctpSocket.connectx [] mallocOk res).syscalled = false) ∧
    (∀ socketRes mallocOk cres, (SctpStream.connectx [] socketRes mallocOk cres).result =
      .error (.invalidInput "No addresses given")) ∧
    (∀ socketRes mallocOk bres lres,
      (SctpListener.bindx [] socketRes mallocOk bres lres).result =
        .error (.invalidInput "No addresses given")) ∧
    (∀ a res, (SctpSocket.bindx [some a] true res).copies = [(0, addrLen a)]) ∧
    (∀ a res, (SctpSocket.connectx [some a] true res).copies = [(0, addrLen a)]) := by
  refine ⟨fun mallocOk res => ⟨rfl, rfl, rfl⟩, fun mallocOk res => ⟨rfl, rfl, rfl⟩,
    fun socketRes mallocOk cres => rfl, fun socketRes mallocOk bres lres => rfl,
    fun a res => ?_, fun a res => ?_⟩
  · cases res <;> rfl
  · cases res <;> rfl

end RustSctp
